import Mathlib

/-!
Verification of the DNS wire codec and single-exchange query pipeline of the
nsq resolver client (file src/client.rs of the repository).

Modelling conventions:
- Byte buffers (Rust Vec of u8 and byte slices) are List Nat whose entries are
  byte values; where the source performs a genuine u8 truncation (a cast with
  the as operator) the model applies an explicit mod 256.
- The source field reads of the form ((b as u16) << 8) | (b2 as u16), applied
  to two u8 values, are modelled as b * 256 + b2, which is the same number for
  byte-valued operands because the low byte cannot overlap the shifted high
  byte.
- Fallible operations return Option or Except. A Rust slice or Vec index that
  can be out of bounds at runtime (a panic) is modelled by the distinguished
  result QueryResult.panic; indices that the loop guard provably keeps in
  bounds are read with getD, whose default can never be hit there.
- The bincode serialization used by encode and decode (big endian, varint
  length encoding, trailing bytes allowed on decode) is embedded concretely:
  the six two-byte header arrays serialize as raw bytes, and each Vec of u8
  serializes as a varint length followed by the raw bytes. The varint scheme
  stores values up to 250 in one byte, and larger values behind a marker byte
  251 (u16), 252 (u32) or 253 (u64), big endian.
- The address text rendering (Ipv4Addr and Ipv6Addr to_string) is presentation
  only; the model keeps the numeric octets and 16-bit groups that the source
  passes to the address constructors.
- IO (socket construction, send, recv) and the random id draw are outside the
  embedding; the pure remainder of Client::query after recv is modelled by
  clientQueryRecv, parameterized by the sent id, the host, the encoded
  question length and the received bytes.
-/

/-- Query type enumeration of src/client.rs. -/
inductive QueryType where
  | A
  | AAAA
  | SOA
  | CNAME
deriving DecidableEq, Repr

/-- Class type enumeration of src/client.rs (IN only). -/
inductive ClassType where
  | IN
deriving DecidableEq, Repr

/-- The error kinds of ClientError in src/client.rs. The String payloads of
the source variants carry diagnostic text only and are dropped. -/
inductive ClientErrorKind where
  | ParseError
  | BindError
  | ConnectError
  | SendError
  | RecvError
  | EncodeError
  | DecodeError
  | DecodeIdError
  | RDCodeFormatError
  | RDCodeServerFailure
  | RDCodeNameError
  | RDCodeNotImplemented
  | RDCodeRefused
deriving DecidableEq, Repr

/-- The numeric content of the address string built by decode_query_answers:
either four IPv4 octets or eight 16-bit IPv6 groups. -/
inductive Addr where
  | ipv4 (a b c d : Nat)
  | ipv6 (w1 w2 w3 w4 w5 w6 w7 w8 : Nat)
deriving DecidableEq, Repr

/-- QueryAnswer of src/client.rs; the address field keeps the numeric address
content rather than its text rendering. -/
structure QueryAnswer where
  host : List Nat
  address : Addr
  query_type : QueryType
  class_type : ClassType
deriving DecidableEq, Repr

/-- DNSMessage of src/client.rs: six two-byte header fields and two byte
vectors. -/
structure DNSMessage where
  id : Nat × Nat
  flags : Nat × Nat
  questions : Nat × Nat
  answers_rrs : Nat × Nat
  authority_rrs : Nat × Nat
  additional_rrs : Nat × Nat
  queries : List Nat
  answers : List Nat
deriving DecidableEq, Repr

/-- Outcome of the pure part of Client::query after a datagram is received:
an answer list, a ClientError kind, or a runtime index panic. -/
inductive QueryResult where
  | answers (xs : List QueryAnswer)
  | err (e : ClientErrorKind)
  | panic
deriving DecidableEq, Repr

instance {ε α : Type} [DecidableEq ε] [DecidableEq α] :
    DecidableEq (Except ε α) := fun a b =>
  match a, b with
  | Except.ok x, Except.ok y =>
    if h : x = y then isTrue (h ▸ rfl)
    else isFalse fun hc => h (Except.ok.inj hc)
  | Except.error x, Except.error y =>
    if h : x = y then isTrue (h ▸ rfl)
    else isFalse fun hc => h (Except.error.inj hc)
  | Except.ok _, Except.error _ => isFalse fun hc => Except.noConfusion hc
  | Except.error _, Except.ok _ => isFalse fun hc => Except.noConfusion hc

/-- DNSMessage::encode_query_type: A and AAAA get their two-byte wire codes,
every other variant falls to the wildcard arm returning an empty vector. -/
def encodeQueryType : QueryType → List Nat
  | QueryType.A => [0, 1]
  | QueryType.AAAA => [0, 0x1c]
  | _ => []

/-- DNSMessage::decode_query_type. -/
def decodeQueryType : List Nat → Except ClientErrorKind QueryType
  | [0, 1] => Except.ok QueryType.A
  | [0, 0x1c] => Except.ok QueryType.AAAA
  | [0, 5] => Except.ok QueryType.CNAME
  | [0, 6] => Except.ok QueryType.SOA
  | _ => Except.error ClientErrorKind.DecodeError

/-- DNSMessage::encode_class_type. -/
def encodeClassType : List Nat := [0, 1]

/-- DNSMessage::decode_class_type. -/
def decodeClassType : List Nat → Except ClientErrorKind ClassType
  | [0, 1] => Except.ok ClassType.IN
  | _ => Except.error ClientErrorKind.DecodeError

/-- The split of host.split(".") at byte level: splits the byte list on the
dot byte 46, keeping empty words, and yields one empty word for the empty
input, as the Rust str split iterator does. -/
def splitOnDot : List Nat → List (List Nat)
  | [] => [[]]
  | b :: rest =>
    if b = 46 then [] :: splitOnDot rest
    else
      match splitOnDot rest with
      | [] => [[b]]
      | w :: ws => (b :: w) :: ws

/-- DNSMessage::encode_host: for each dot-separated word push its byte length
truncated to u8 and then its bytes, then push the terminating zero label, the
query type code and the class code. The fold mirrors the push and extend
sequence of the source. -/
def encodeHost (host : List Nat) (query_type : QueryType) : List Nat :=
  ((splitOnDot host).foldl (fun acc w => acc ++ w.length % 256 :: w) [])
    ++ [0] ++ encodeQueryType query_type ++ encodeClassType

/-- The bincode varint encoding of a usize length, big endian payload. -/
def varintEncode (n : Nat) : List Nat :=
  if n ≤ 250 then [n]
  else if n < 2 ^ 16 then [251, n / 2 ^ 8 % 256, n % 256]
  else if n < 2 ^ 32 then
    [252, n / 2 ^ 24 % 256, n / 2 ^ 16 % 256, n / 2 ^ 8 % 256, n % 256]
  else
    [253, n / 2 ^ 56 % 256, n / 2 ^ 48 % 256, n / 2 ^ 40 % 256,
      n / 2 ^ 32 % 256, n / 2 ^ 24 % 256, n / 2 ^ 16 % 256, n / 2 ^ 8 % 256,
      n % 256]

/-- The bincode serialization of a DNSMessage under the options used by the
source: the six header pairs as raw bytes, then each Vec as a varint length
followed by its bytes. -/
def DNSMessage.serialize (m : DNSMessage) : List Nat :=
  [m.id.1, m.id.2, m.flags.1, m.flags.2, m.questions.1, m.questions.2,
    m.answers_rrs.1, m.answers_rrs.2, m.authority_rrs.1, m.authority_rrs.2,
    m.additional_rrs.1, m.additional_rrs.2]
    ++ varintEncode m.queries.length ++ m.queries
    ++ varintEncode m.answers.length ++ m.answers

/-- DNSMessage::new, with the random u16 id as an explicit parameter: the
header stores the id split into high and low u8, the flags are fixed to the
recursion-desired query pattern, the question count is one and the three
remaining counts are zero. -/
def DNSMessage.new (id : Nat) (queries : List Nat) : DNSMessage :=
  { id := ((id >>> 8) % 256, id % 256)
    flags := (1, 0)
    questions := (0, 1)
    answers_rrs := (0, 0)
    authority_rrs := (0, 0)
    additional_rrs := (0, 0)
    queries := queries
    answers := [] }

/-- DNSMessage::encode: the bincode serialization with the byte at index 12
removed (the first byte of the varint length of the queries vector). -/
def DNSMessage.encode (m : DNSMessage) : List Nat :=
  m.serialize.eraseIdx 12

/-- The bincode varint length decoder over a front-consumed byte list:
values up to 250 in one byte, marker 251 followed by a big endian u16,
marker 252 by a u32, marker 253 by a u64; marker 254 carries a u128, which
exceeds usize unless its high half is zero; byte 255 is invalid. -/
def readVarint : List Nat → Option (Nat × List Nat)
  | [] => none
  | b :: rest =>
    if b ≤ 250 then some (b, rest)
    else if b = 251 then
      match rest with
      | b1 :: b0 :: r => some (b1 * 2 ^ 8 + b0, r)
      | _ => none
    else if b = 252 then
      match rest with
      | b3 :: b2 :: b1 :: b0 :: r =>
        some (b3 * 2 ^ 24 + b2 * 2 ^ 16 + b1 * 2 ^ 8 + b0, r)
      | _ => none
    else if b = 253 then
      match rest with
      | b7 :: b6 :: b5 :: b4 :: b3 :: b2 :: b1 :: b0 :: r =>
        some (b7 * 2 ^ 56 + b6 * 2 ^ 48 + b5 * 2 ^ 40 + b4 * 2 ^ 32 +
          b3 * 2 ^ 24 + b2 * 2 ^ 16 + b1 * 2 ^ 8 + b0, r)
      | _ => none
    else none

/-- Reading a counted byte vector: succeeds only when enough bytes remain. -/
def splitTake (n : Nat) (l : List Nat) : Option (List Nat × List Nat) :=
  if n ≤ l.length then some (l.take n, l.drop n) else none

/-- The bincode deserialization of a DNSMessage under the decode options of
the source (big endian, varint lengths, trailing bytes allowed): twelve raw
header bytes, then two varint-counted byte vectors; whatever follows is
ignored. -/
def deserializeDNSMessage (data : List Nat) : Option DNSMessage :=
  match data with
  | i0 :: i1 :: f0 :: f1 :: q0 :: q1 :: an0 :: an1 :: au0 :: au1 :: ad0 ::
      ad1 :: rest =>
    match readVarint rest with
    | none => none
    | some (qlen, r1) =>
      match splitTake qlen r1 with
      | none => none
      | some (queries, r2) =>
        match readVarint r2 with
        | none => none
        | some (alen, r3) =>
          match splitTake alen r3 with
          | none => none
          | some (answers, _r4) =>
            some
              { id := (i0, i1), flags := (f0, f1), questions := (q0, q1)
                answers_rrs := (an0, an1), authority_rrs := (au0, au1)
                additional_rrs := (ad0, ad1), queries := queries
                answers := answers }
  | _ => none

/-- DNSMessage::decode: deserialize the first rcvd_len bytes of the receive
buffer. -/
def DNSMessage.decode (data : List Nat) (rcvdLen : Nat) : Option DNSMessage :=
  deserializeDNSMessage (data.take rcvdLen)

/-- DNSMessage::rd_code: the low four bits of the second flags byte select
the outcome; 1 through 5 map to the five RDCode errors, everything else is
success. The bitwise and with 0x0f is written as the source has it. -/
def DNSMessage.rdCode (m : DNSMessage) : Except ClientErrorKind Unit :=
  match m.flags.2 &&& 0x0f with
  | 0 => Except.ok ()
  | 1 => Except.error ClientErrorKind.RDCodeFormatError
  | 2 => Except.error ClientErrorKind.RDCodeServerFailure
  | 3 => Except.error ClientErrorKind.RDCodeNameError
  | 4 => Except.error ClientErrorKind.RDCodeNotImplemented
  | 5 => Except.error ClientErrorKind.RDCodeRefused
  | _ => Except.ok ()

/-- Push one answer in front of the answers of a continuing walk; errors and
panics of the continuation swallow the pushed answer, as the imperative loop
returns them discarding the accumulator. -/
def consAnswer (a : QueryAnswer) : QueryResult → QueryResult
  | QueryResult.answers xs => QueryResult.answers (a :: xs)
  | r => r

/-- The while loop of DNSMessage::decode_query_answers over the answer bytes
resp, starting at cursor i. The guard is the strict comparison i + 12 <
resp.length of the source. Reads at offsets i through i + 11 are within
bounds whenever the guard holds and are taken with getD; the address reads at
offsets i + 12 and beyond are only partly guarded and produce panic when they
would index past the end, as the Rust slice indexing does. -/
def walkAnswers (host : List Nat) (resp : List Nat) (i : Nat) : QueryResult :=
  if i + 12 < resp.length then
    if resp.getD i 0 = 0xc0 then
      match decodeQueryType [resp.getD (i + 2) 0, resp.getD (i + 3) 0] with
      | Except.error e => QueryResult.err e
      | Except.ok query_type =>
        match decodeClassType [resp.getD (i + 4) 0, resp.getD (i + 5) 0] with
        | Except.error e => QueryResult.err e
        | Except.ok class_type =>
          let data_len := resp.getD (i + 10) 0 * 256 + resp.getD (i + 11) 0
          if query_type = QueryType.A ∨ query_type = QueryType.AAAA then
            if query_type = QueryType.A then
              if i + 15 < resp.length then
                consAnswer
                  { host := host
                    address := Addr.ipv4 (resp.getD (i + 12) 0)
                      (resp.getD (i + 13) 0) (resp.getD (i + 14) 0)
                      (resp.getD (i + 15) 0)
                    query_type := query_type, class_type := class_type }
                  (walkAnswers host resp (i + 12 + data_len))
              else QueryResult.panic
            else
              if i + 27 < resp.length then
                consAnswer
                  { host := host
                    address := Addr.ipv6
                      (resp.getD (i + 12) 0 * 256 + resp.getD (i + 13) 0)
                      (resp.getD (i + 14) 0 * 256 + resp.getD (i + 15) 0)
                      (resp.getD (i + 16) 0 * 256 + resp.getD (i + 17) 0)
                      (resp.getD (i + 18) 0 * 256 + resp.getD (i + 19) 0)
                      (resp.getD (i + 20) 0 * 256 + resp.getD (i + 21) 0)
                      (resp.getD (i + 22) 0 * 256 + resp.getD (i + 23) 0)
                      (resp.getD (i + 24) 0 * 256 + resp.getD (i + 25) 0)
                      (resp.getD (i + 26) 0 * 256 + resp.getD (i + 27) 0)
                    query_type := query_type, class_type := class_type }
                  (walkAnswers host resp (i + 12 + data_len))
              else QueryResult.panic
          else walkAnswers host resp (i + 12 + data_len)
    else QueryResult.err ClientErrorKind.DecodeError
  else QueryResult.answers []
termination_by resp.length - i
decreasing_by all_goals omega

/-- DNSMessage::decode_query_answers: if fewer bytes than the question length
follow the header, return the empty answer list; otherwise walk the bytes
after the echoed question. -/
def decodeQueryAnswers (host : List Nat) (queriesLen : Nat)
    (rest : List Nat) : QueryResult :=
  if rest.length < queriesLen then QueryResult.answers []
  else walkAnswers host (rest.drop queriesLen) 0

/-- The pure tail of Client::query after the datagram is received: decode the
received bytes, compare the transaction ids, interpret the response code and
walk the answers. sentId is the id pair of the sent message, queriesLen the
length of the encoded question, data the received bytes. -/
def clientQueryRecv (sentId : Nat × Nat) (host : List Nat)
    (queriesLen : Nat) (data : List Nat) : QueryResult :=
  match DNSMessage.decode data data.length with
  | none => QueryResult.err ClientErrorKind.DecodeError
  | some msgDecoded =>
    let rest := data.drop 12
    if sentId ≠ msgDecoded.id then QueryResult.err ClientErrorKind.DecodeIdError
    else
      match msgDecoded.rdCode with
      | Except.error e => QueryResult.err e
      | Except.ok _ => decodeQueryAnswers host queriesLen rest

/-- The answer walk as the specification sentence describes it: a record is
processed whenever at least 12 bytes remain at the cursor, and the walk stops
exactly when fewer than 12 remain. Identical to walkAnswers except for the
loop guard, which is i + 12 less than or equal to the length here. -/
def answerWalkSpec (host : List Nat) (resp : List Nat) (i : Nat) :
    QueryResult :=
  if i + 12 ≤ resp.length then
    if resp.getD i 0 = 0xc0 then
      match decodeQueryType [resp.getD (i + 2) 0, resp.getD (i + 3) 0] with
      | Except.error e => QueryResult.err e
      | Except.ok query_type =>
        match decodeClassType [resp.getD (i + 4) 0, resp.getD (i + 5) 0] with
        | Except.error e => QueryResult.err e
        | Except.ok class_type =>
          let data_len := resp.getD (i + 10) 0 * 256 + resp.getD (i + 11) 0
          if query_type = QueryType.A ∨ query_type = QueryType.AAAA then
            if query_type = QueryType.A then
              if i + 15 < resp.length then
                consAnswer
                  { host := host
                    address := Addr.ipv4 (resp.getD (i + 12) 0)
                      (resp.getD (i + 13) 0) (resp.getD (i + 14) 0)
                      (resp.getD (i + 15) 0)
                    query_type := query_type, class_type := class_type }
                  (answerWalkSpec host resp (i + 12 + data_len))
              else QueryResult.panic
            else
              if i + 27 < resp.length then
                consAnswer
                  { host := host
                    address := Addr.ipv6
                      (resp.getD (i + 12) 0 * 256 + resp.getD (i + 13) 0)
                      (resp.getD (i + 14) 0 * 256 + resp.getD (i + 15) 0)
                      (resp.getD (i + 16) 0 * 256 + resp.getD (i + 17) 0)
                      (resp.getD (i + 18) 0 * 256 + resp.getD (i + 19) 0)
                      (resp.getD (i + 20) 0 * 256 + resp.getD (i + 21) 0)
                      (resp.getD (i + 22) 0 * 256 + resp.getD (i + 23) 0)
                      (resp.getD (i + 24) 0 * 256 + resp.getD (i + 25) 0)
                      (resp.getD (i + 26) 0 * 256 + resp.getD (i + 27) 0)
                    query_type := query_type, class_type := class_type }
                  (answerWalkSpec host resp (i + 12 + data_len))
              else QueryResult.panic
          else answerWalkSpec host resp (i + 12 + data_len)
    else QueryResult.err ClientErrorKind.DecodeError
  else QueryResult.answers []
termination_by resp.length - i
decreasing_by all_goals omega

/-- Concrete response used to exhibit the reachable out-of-bounds read of
decode_query_answers: a well-formed header with id 0x1234 and a successful
status, the echoed question for host ab with type A, and then a truncated A
record: pointer 0xc0 0x0c, type A, class IN, TTL zero, declared RDATA length
4, but only one of the four address bytes present. -/
def c3data : List Nat :=
  [18, 52, 128, 0, 0, 1, 0, 1, 0, 0, 0, 0]
    ++ encodeHost [97, 98] QueryType.A
    ++ [0xc0, 0x0c, 0, 1, 0, 1, 0, 0, 0, 0, 0, 4, 93]

theorem varintEncode_of_le (n : Nat) (h : n ≤ 250) : varintEncode n = [n] := by
  simp [varintEncode, h]

theorem eraseIdx_cons12 (a b c d e f g h j k l n x : Nat) (t : List Nat) :
    List.eraseIdx
        (a :: b :: c :: d :: e :: f :: g :: h :: j :: k :: l :: n :: x :: t) 12
      = a :: b :: c :: d :: e :: f :: g :: h :: j :: k :: l :: n :: t := rfl

/-- The encode output for a message built by new: the twelve header bytes,
the question bytes and one trailing zero byte, the serialized length of the
empty answers vector, provided the question length fits one varint byte. -/
theorem encode_new_eq (id : Nat) (q : List Nat) (hq : q.length ≤ 250) :
    DNSMessage.encode (DNSMessage.new id q)
      = [(id >>> 8) % 256, id % 256, 1, 0, 0, 1, 0, 0, 0, 0, 0, 0]
        ++ q ++ [0] := by
  have h0 : varintEncode (List.length ([] : List Nat)) = [0] := by
    simp [varintEncode]
  simp only [DNSMessage.encode, DNSMessage.serialize, DNSMessage.new,
    varintEncode_of_le _ hq, h0, List.append_nil, List.cons_append,
    List.nil_append, List.append_assoc, List.singleton_append]
  rw [eraseIdx_cons12]

theorem splitOnDot_ne_nil (l : List Nat) : splitOnDot l ≠ [] := by
  cases l with
  | nil => simp [splitOnDot]
  | cons b rest =>
    simp only [splitOnDot]
    by_cases hb : b = 46
    · simp [hb]
    · simp only [hb, if_false]
      cases h : splitOnDot rest <;> simp

theorem foldl_push_eq_flatMap (ws : List (List Nat)) (acc : List Nat) :
    ws.foldl (fun acc w => acc ++ w.length % 256 :: w) acc
      = acc ++ ws.flatMap (fun w => w.length % 256 :: w) := by
  induction ws generalizing acc with
  | nil => simp
  | cons w ws ih =>
    simp only [List.foldl_cons, List.flatMap_cons, ih, List.append_assoc,
      List.cons_append, List.nil_append]

/-- encode_host written declaratively: the concatenation of the
length-prefixed labels, the zero terminator, the type code and the class
code. -/
theorem encodeHost_eq (host : List Nat) (qt : QueryType) :
    encodeHost host qt
      = ((splitOnDot host).flatMap fun w => w.length % 256 :: w) ++ [0]
        ++ encodeQueryType qt ++ [0, 1] := by
  simp [encodeHost, foldl_push_eq_flatMap, encodeClassType]

/-- C1 (counterexample): for host ab and type A, the encoded query is not the
12-byte header immediately followed by the question bytes alone: the
underlying serialization appends the varint length of the empty answers
vector, a trailing zero byte that the remove call does not strip. -/
theorem c1_encode_counterexample :
    DNSMessage.encode (DNSMessage.new 0x1234 (encodeHost [97, 98] QueryType.A))
      ≠ [0x12, 0x34, 1, 0, 0, 1, 0, 0, 0, 0, 0, 0]
        ++ encodeHost [97, 98] QueryType.A := by decide

/-- C1 (amended): for every id and every host and query type whose encoded
question is at most 250 bytes, the encoded query message is the 12-byte
header, then the question bytes, then exactly one extra trailing zero byte:
the serialized length of the empty answers vector, which the post-hoc strip
of the queries length byte leaves in place. -/
theorem c1_encode_layout (id : Nat) (host : List Nat) (qt : QueryType)
    (hq : (encodeHost host qt).length ≤ 250) :
    DNSMessage.encode (DNSMessage.new id (encodeHost host qt))
      = [(id >>> 8) % 256, id % 256, 1, 0, 0, 1, 0, 0, 0, 0, 0, 0]
        ++ encodeHost host qt ++ [0] :=
  encode_new_eq id _ hq

theorem c1_encode_layout_witness :
    (encodeHost [97, 98] QueryType.A).length ≤ 250
    ∧ DNSMessage.encode (DNSMessage.new 0x1234 (encodeHost [97, 98] QueryType.A))
        = [0x12, 0x34, 1, 0, 0, 1, 0, 0, 0, 0, 0, 0]
          ++ encodeHost [97, 98] QueryType.A ++ [0] :=
  ⟨by decide, c1_encode_layout 0x1234 [97, 98] QueryType.A (by decide)⟩

/-- C4: rd_code maps the low four bits of the second flags byte to success
for 0, to the five RDCode errors for 1 through 5, and to success for every
value from 6 through 15. -/
theorem c4_rd_code_mapping (m : DNSMessage) :
    (m.flags.2 &&& 0x0f = 0 → m.rdCode = Except.ok ())
    ∧ (m.flags.2 &&& 0x0f = 1 →
        m.rdCode = Except.error ClientErrorKind.RDCodeFormatError)
    ∧ (m.flags.2 &&& 0x0f = 2 →
        m.rdCode = Except.error ClientErrorKind.RDCodeServerFailure)
    ∧ (m.flags.2 &&& 0x0f = 3 →
        m.rdCode = Except.error ClientErrorKind.RDCodeNameError)
    ∧ (m.flags.2 &&& 0x0f = 4 →
        m.rdCode = Except.error ClientErrorKind.RDCodeNotImplemented)
    ∧ (m.flags.2 &&& 0x0f = 5 →
        m.rdCode = Except.error ClientErrorKind.RDCodeRefused)
    ∧ (6 ≤ m.flags.2 &&& 0x0f → m.rdCode = Except.ok ()) := by
  refine ⟨fun h => ?_, fun h => ?_, fun h => ?_, fun h => ?_, fun h => ?_,
    fun h => ?_, fun h => ?_⟩ <;>
    [skip; skip; skip; skip; skip; skip;
      · have hle : m.flags.2 &&& 0x0f ≤ 15 := Nat.and_le_right
        unfold DNSMessage.rdCode
        set v := m.flags.2 &&& 0x0f with hv
        interval_cases v <;> rfl] <;>
    simp [DNSMessage.rdCode, h]

theorem c4_rd_code_witness :
    ((DNSMessage.mk (0, 0) (0, 131) (0, 1) (0, 0) (0, 0) (0, 0) [] []).flags.2
        &&& 0x0f = 3)
    ∧ (DNSMessage.mk (0, 0) (0, 131) (0, 1) (0, 0) (0, 0) (0, 0) [] []).rdCode
        = Except.error ClientErrorKind.RDCodeNameError :=
  ⟨by decide,
    (c4_rd_code_mapping
      (DNSMessage.mk (0, 0) (0, 131) (0, 1) (0, 0) (0, 0) (0, 0) [] [])
      ).2.2.2.1 (by decide)⟩

/-- C10: when strictly fewer bytes than the encoded question length follow
the header, decode_query_answers returns the empty answer list as success
rather than a decode error. -/
theorem c10_truncated_success (host : List Nat) (queriesLen : Nat)
    (rest : List Nat) (h : rest.length < queriesLen) :
    decodeQueryAnswers host queriesLen rest = QueryResult.answers [] := by
  simp [decodeQueryAnswers, h]

theorem c10_truncated_witness :
    ([1, 2, 3] : List Nat).length < 8
    ∧ decodeQueryAnswers [] 8 [1, 2, 3] = QueryResult.answers [] :=
  ⟨by decide, c10_truncated_success [] 8 [1, 2, 3] (by decide)⟩

/-- C6 (counterexample): for host ab and query type SOA the encoded question
carries no type bytes at all: encode_query_type maps SOA (and CNAME) to the
empty vector through its wildcard arm, so the output is the label sequence,
the terminator and the class code only, not the label sequence followed by
the two-byte SOA wire code 0 6 (the code the decoder itself assigns to SOA)
and the class code. -/
theorem c6_encode_host_counterexample :
    encodeHost [97, 98] QueryType.SOA = [2, 97, 98, 0, 0, 1]
    ∧ decodeQueryType [0, 6] = Except.ok QueryType.SOA
    ∧ encodeHost [97, 98] QueryType.SOA
        ≠ [2, 97, 98] ++ [0] ++ [0, 6] ++ [0, 1] := by decide

/-- C6 (amended): for every host whose labels are at most 255 bytes and every
query type, the encoded question is the length-prefixed label sequence, the
zero terminator, the output of encode_query_type and the class code 0 1 --
where encode_query_type yields the two-byte wire code for A and AAAA but the
empty sequence for CNAME and SOA. -/
theorem c6_encode_host_shape (host : List Nat) (qt : QueryType)
    (h : ∀ w ∈ splitOnDot host, w.length ≤ 255) :
    encodeHost host qt
      = ((splitOnDot host).flatMap fun w => w.length :: w) ++ [0]
        ++ encodeQueryType qt ++ [0, 1]
    ∧ encodeQueryType QueryType.A = [0, 1]
    ∧ encodeQueryType QueryType.AAAA = [0, 0x1c]
    ∧ encodeQueryType QueryType.CNAME = []
    ∧ encodeQueryType QueryType.SOA = [] := by
  refine ⟨?_, rfl, rfl, rfl, rfl⟩
  rw [encodeHost_eq]
  have hcong : (splitOnDot host).flatMap (fun w => w.length % 256 :: w)
      = (splitOnDot host).flatMap (fun w => w.length :: w) :=
    List.flatMap_congr fun w hw => by
      rw [Nat.mod_eq_of_lt (lt_of_le_of_lt (h w hw) (by norm_num))]
  rw [hcong]

theorem c6_encode_host_witness :
    (∀ w ∈ splitOnDot [97, 98, 46, 99], w.length ≤ 255)
    ∧ encodeHost [97, 98, 46, 99] QueryType.A
        = ((splitOnDot [97, 98, 46, 99]).flatMap fun w => w.length :: w)
          ++ [0] ++ encodeQueryType QueryType.A ++ [0, 1] :=
  ⟨by decide, (c6_encode_host_shape [97, 98, 46, 99] QueryType.A (by decide)).1⟩

/-- C5 (counterexample): on an answer slice of exactly 12 bytes whose first
byte is not a compression pointer, the walk of decode_query_answers does not
process the record: it returns success with no answers, while processing a
record with at least 12 bytes remaining, as the claim states, would reject
the first byte with a decode error (answerWalkSpec is the walk with the
guard the claim describes). -/
theorem c5_walk_counterexample :
    decodeQueryAnswers [] 0 [0xde, 0, 0, 0, 0, 0, 0, 0, 0, 0, 0, 0]
      = QueryResult.answers []
    ∧ answerWalkSpec [] [0xde, 0, 0, 0, 0, 0, 0, 0, 0, 0, 0, 0] 0
        = QueryResult.err ClientErrorKind.DecodeError
    ∧ decodeQueryAnswers [] 0 [0xde, 0, 0, 0, 0, 0, 0, 0, 0, 0, 0, 0]
        ≠ answerWalkSpec [] [0xde, 0, 0, 0, 0, 0, 0, 0, 0, 0, 0, 0] 0 := by
  have h1 : decodeQueryAnswers [] 0 [0xde, 0, 0, 0, 0, 0, 0, 0, 0, 0, 0, 0]
      = QueryResult.answers [] := by
    rw [decodeQueryAnswers, if_neg (by decide), walkAnswers]
    decide
  have h2 : answerWalkSpec [] [0xde, 0, 0, 0, 0, 0, 0, 0, 0, 0, 0, 0] 0
      = QueryResult.err ClientErrorKind.DecodeError := by
    rw [answerWalkSpec]
    decide
  exact ⟨h1, h2, by rw [h1, h2]; decide⟩

/-- C5 (amended): the walk processes a record only when strictly more than 12
bytes remain at the cursor (the loop guard is i + 12 < length); it stops with
the empty remainder exactly when 12 or fewer bytes remain; and for every
processed record, address-bearing or not, the cursor advances by 12 plus the
RDATA length read from the two length bytes of the record. -/
theorem c5_walk_cursor (host resp : List Nat) (i : Nat) :
    (resp.length ≤ i + 12 → walkAnswers host resp i = QueryResult.answers [])
    ∧ (∀ qt ct,
        i + 12 < resp.length →
        resp.getD i 0 = 0xc0 →
        decodeQueryType [resp.getD (i + 2) 0, resp.getD (i + 3) 0]
          = Except.ok qt →
        decodeClassType [resp.getD (i + 4) 0, resp.getD (i + 5) 0]
          = Except.ok ct →
        ((qt = QueryType.CNAME ∨ qt = QueryType.SOA →
            walkAnswers host resp i
              = walkAnswers host resp
                  (i + 12 + (resp.getD (i + 10) 0 * 256 + resp.getD (i + 11) 0)))
          ∧ (qt = QueryType.A → i + 15 < resp.length →
            walkAnswers host resp i
              = consAnswer
                  { host := host
                    address := Addr.ipv4 (resp.getD (i + 12) 0)
                      (resp.getD (i + 13) 0) (resp.getD (i + 14) 0)
                      (resp.getD (i + 15) 0)
                    query_type := QueryType.A, class_type := ct }
                  (walkAnswers host resp
                    (i + 12 + (resp.getD (i + 10) 0 * 256 + resp.getD (i + 11) 0))))
          ∧ (qt = QueryType.AAAA → i + 27 < resp.length →
            walkAnswers host resp i
              = consAnswer
                  { host := host
                    address := Addr.ipv6
                      (resp.getD (i + 12) 0 * 256 + resp.getD (i + 13) 0)
                      (resp.getD (i + 14) 0 * 256 + resp.getD (i + 15) 0)
                      (resp.getD (i + 16) 0 * 256 + resp.getD (i + 17) 0)
                      (resp.getD (i + 18) 0 * 256 + resp.getD (i + 19) 0)
                      (resp.getD (i + 20) 0 * 256 + resp.getD (i + 21) 0)
                      (resp.getD (i + 22) 0 * 256 + resp.getD (i + 23) 0)
                      (resp.getD (i + 24) 0 * 256 + resp.getD (i + 25) 0)
                      (resp.getD (i + 26) 0 * 256 + resp.getD (i + 27) 0)
                    query_type := QueryType.AAAA, class_type := ct }
                  (walkAnswers host resp
                    (i + 12 + (resp.getD (i + 10) 0 * 256 + resp.getD (i + 11) 0)))))) := by
  constructor
  · intro h
    rw [walkAnswers, if_neg (by omega)]
  · intro qt ct h12 hc0 hqt hct
    refine ⟨fun hqtv => ?_, fun hqtv h15 => ?_, fun hqtv h27 => ?_⟩
    · rw [walkAnswers, if_pos h12, if_pos hc0, hqt, hct]
      rcases hqtv with h | h <;> subst h <;> simp
    · subst hqtv
      rw [walkAnswers, if_pos h12, if_pos hc0, hqt, hct]
      simp [h15]
    · subst hqtv
      rw [walkAnswers, if_pos h12, if_pos hc0, hqt, hct]
      simp [h27]

theorem c5_walk_cursor_witness :
    (([0, 0] : List Nat).length ≤ 0 + 12)
    ∧ walkAnswers [] [0, 0] 0 = QueryResult.answers [] :=
  ⟨by decide, (c5_walk_cursor [] [0, 0] 0).1 (by decide)⟩

theorem readVarint_cons_le (b : Nat) (r : List Nat) (h : b ≤ 250) :
    readVarint (b :: r) = some (b, r) := by
  simp [readVarint, h]

theorem splitTake_prefix (w r : List Nat) :
    splitTake w.length (w ++ r) = some (w, r) := by
  simp [splitTake, List.take_left, List.drop_left]

theorem splitTake_zero (l : List Nat) : splitTake 0 l = some ([], l) := by
  simp [splitTake]

/-- C2 (counterexample): encoding the question for host ab with type A and
decoding the resulting bytes does not restore the question: the decoder reads
the first label length byte 2 as the bincode length of the queries vector, so
the decoded queries field is the two bytes of the first label, not the
eight-byte encoded question. -/
theorem c2_roundtrip_counterexample :
    (deserializeDNSMessage
      (DNSMessage.encode
        (DNSMessage.new 0 (encodeHost [97, 98] QueryType.A)))).map
          DNSMessage.queries
      = some [97, 98]
    ∧ some [97, 98] ≠ some (encodeHost [97, 98] QueryType.A) := by decide

/-- C2 (amended): for every host whose encoded question fits one varint byte
and whose labels are at most 250 bytes, and every type and id, re-decoding
the encoded query succeeds and restores the header fields, but the queries
field of the decoded message holds only the first label of the host, not the
encoded question. -/
theorem c2_roundtrip_first_label (host : List Nat) (t : QueryType) (id : Nat)
    (hq : (encodeHost host t).length ≤ 250)
    (hw : ∀ w ∈ splitOnDot host, w.length ≤ 250) :
    ∃ m, deserializeDNSMessage
        (DNSMessage.encode (DNSMessage.new id (encodeHost host t))) = some m
      ∧ m.id = ((id >>> 8) % 256, id % 256)
      ∧ m.flags = (1, 0)
      ∧ m.questions = (0, 1)
      ∧ m.queries = (splitOnDot host).headD [] := by
  rw [encode_new_eq id _ hq]
  rcases hsd : splitOnDot host with _ | ⟨w, ws⟩
  · exact absurd hsd (splitOnDot_ne_nil host)
  · have hwlen : w.length ≤ 250 := hw w (by rw [hsd]; exact List.mem_cons_self _ _)
    have hq' : encodeHost host t
        = w.length :: (w ++ ((ws.flatMap fun x => x.length % 256 :: x)
            ++ ([0] ++ (encodeQueryType t ++ [0, 1])))) := by
      rw [encodeHost_eq, hsd, List.flatMap_cons,
        Nat.mod_eq_of_lt (by omega)]
      simp [List.append_assoc]
    rw [hq']
    cases ws with
    | nil =>
      refine ⟨⟨((id >>> 8) % 256, id % 256), (1, 0), (0, 1), (0, 0), (0, 0),
        (0, 0), w, []⟩, ?_, rfl, rfl, rfl, rfl⟩
      simp only [List.cons_append, List.nil_append, List.flatMap_nil,
        List.append_assoc, deserializeDNSMessage,
        readVarint_cons_le _ _ hwlen, splitTake_prefix,
        readVarint_cons_le 0 _ (by omega), splitTake_zero]
    | cons w2 ws' =>
      have hw2len : w2.length ≤ 250 := hw w2 (by rw [hsd]; simp)
      refine ⟨⟨((id >>> 8) % 256, id % 256), (1, 0), (0, 1), (0, 0), (0, 0),
        (0, 0), w, w2⟩, ?_, rfl, rfl, rfl, rfl⟩
      simp only [List.cons_append, List.nil_append, List.flatMap_cons,
        List.append_assoc, deserializeDNSMessage,
        readVarint_cons_le _ _ hwlen, splitTake_prefix,
        Nat.mod_eq_of_lt (show w2.length < 256 by omega),
        readVarint_cons_le _ _ hw2len]

theorem c2_roundtrip_first_label_witness :
    (encodeHost [97, 98, 46, 99] QueryType.A).length ≤ 250
    ∧ (∀ w ∈ splitOnDot [97, 98, 46, 99], w.length ≤ 250)
    ∧ ∃ m, deserializeDNSMessage
        (DNSMessage.encode
          (DNSMessage.new 7 (encodeHost [97, 98, 46, 99] QueryType.A)))
        = some m
      ∧ m.id = ((7 >>> 8) % 256, 7 % 256)
      ∧ m.flags = (1, 0)
      ∧ m.questions = (0, 1)
      ∧ m.queries = (splitOnDot [97, 98, 46, 99]).headD [] :=
  ⟨by decide, by decide,
    c2_roundtrip_first_label [97, 98, 46, 99] QueryType.A 7 (by decide)
      (by decide)⟩

/-- C7: whenever the received bytes decode to a message whose transaction id
differs from the sent id, Client::query returns the DecodeIdError correlation
error, whatever the rest of the response holds. -/
theorem c7_id_mismatch (sentId : Nat × Nat) (host : List Nat)
    (queriesLen : Nat) (data : List Nat) (m : DNSMessage)
    (hdec : deserializeDNSMessage data = some m)
    (hid : sentId ≠ m.id) :
    clientQueryRecv sentId host queriesLen data
      = QueryResult.err ClientErrorKind.DecodeIdError := by
  simp only [clientQueryRecv, DNSMessage.decode, List.take_length, hdec,
    if_pos hid]

theorem c7_id_mismatch_witness :
    deserializeDNSMessage [0, 2, 128, 0, 0, 1, 0, 0, 0, 0, 0, 0, 0, 0]
      = some ⟨(0, 2), (128, 0), (0, 1), (0, 0), (0, 0), (0, 0), [], []⟩
    ∧ ((0, 1) : Nat × Nat) ≠ (0, 2)
    ∧ clientQueryRecv (0, 1) [] 0 [0, 2, 128, 0, 0, 1, 0, 0, 0, 0, 0, 0, 0, 0]
        = QueryResult.err ClientErrorKind.DecodeIdError :=
  ⟨by decide, by decide,
    c7_id_mismatch (0, 1) [] 0 [0, 2, 128, 0, 0, 1, 0, 0, 0, 0, 0, 0, 0, 0]
      ⟨(0, 2), (128, 0), (0, 1), (0, 0), (0, 0), (0, 0), [], []⟩
      (by decide) (by decide)⟩

/-- C8: a decoded response with matching transaction id and status field 3
makes Client::query return the RDCodeNameError kind, whatever the answer
section holds: the status check short-circuits before any answer walk. -/
theorem c8_name_error (sentId : Nat × Nat) (host : List Nat)
    (queriesLen : Nat) (data : List Nat) (m : DNSMessage)
    (hdec : deserializeDNSMessage data = some m)
    (hid : sentId = m.id)
    (hf : m.flags.2 &&& 0x0f = 3) :
    clientQueryRecv sentId host queriesLen data
      = QueryResult.err ClientErrorKind.RDCodeNameError := by
  have hrd : m.rdCode = Except.error ClientErrorKind.RDCodeNameError := by
    unfold DNSMessage.rdCode
    rw [hf]
  simp only [clientQueryRecv, DNSMessage.decode, List.take_length, hdec, hrd]
  rw [if_neg (by simp [hid])]

/-- The witness response carries a complete, well-formed A record after the
echoed question, yet the name-error status wins. -/
theorem c8_name_error_witness :
    deserializeDNSMessage
      ([18, 52, 128, 3, 0, 1, 0, 1, 0, 0, 0, 0]
        ++ encodeHost [97, 98] QueryType.A
        ++ [0xc0, 0x0c, 0, 1, 0, 1, 0, 0, 0, 0, 0, 4, 93, 184, 216, 34])
      = some ⟨(18, 52), (128, 3), (0, 1), (0, 1), (0, 0), (0, 0), [97, 98], []⟩
    ∧ ((18, 52) : Nat × Nat) = (18, 52)
    ∧ ((128, 3) : Nat × Nat).2 &&& 0x0f = 3
    ∧ clientQueryRecv (18, 52) [97, 98] (encodeHost [97, 98] QueryType.A).length
        ([18, 52, 128, 3, 0, 1, 0, 1, 0, 0, 0, 0]
          ++ encodeHost [97, 98] QueryType.A
          ++ [0xc0, 0x0c, 0, 1, 0, 1, 0, 0, 0, 0, 0, 4, 93, 184, 216, 34])
        = QueryResult.err ClientErrorKind.RDCodeNameError :=
  ⟨by decide, by decide, by decide,
    c8_name_error (18, 52) [97, 98] (encodeHost [97, 98] QueryType.A).length
      ([18, 52, 128, 3, 0, 1, 0, 1, 0, 0, 0, 0]
        ++ encodeHost [97, 98] QueryType.A
        ++ [0xc0, 0x0c, 0, 1, 0, 1, 0, 0, 0, 0, 0, 4, 93, 184, 216, 34])
      ⟨(18, 52), (128, 3), (0, 1), (0, 1), (0, 0), (0, 0), [97, 98], []⟩
      (by decide) (by decide) (by decide)⟩

/-- C9: a decoded response with matching id, success status, zero answer
count, whose bytes after the header are exactly the question bytes, yields
the empty answer list rather than an error. -/
theorem c9_zero_answers (sentId : Nat × Nat) (host : List Nat)
    (question : List Nat) (data : List Nat) (m : DNSMessage)
    (hdec : deserializeDNSMessage data = some m)
    (hid : sentId = m.id)
    (hf : m.flags.2 &&& 0x0f = 0)
    (_hcnt : m.answers_rrs = (0, 0))
    (hrest : data.drop 12 = question) :
    clientQueryRecv sentId host question.length data
      = QueryResult.answers [] := by
  have hrd : m.rdCode = Except.ok () := by
    unfold DNSMessage.rdCode
    rw [hf]
  simp only [clientQueryRecv, DNSMessage.decode, List.take_length, hdec, hrd]
  rw [if_neg (by simp [hid])]
  simp only [decodeQueryAnswers, hrest]
  rw [if_neg (by omega), List.drop_length, walkAnswers]
  simp

theorem c9_zero_answers_witness :
    deserializeDNSMessage
      ([0, 7, 128, 0, 0, 1, 0, 0, 0, 0, 0, 0] ++ encodeHost [97, 98] QueryType.A)
      = some ⟨(0, 7), (128, 0), (0, 1), (0, 0), (0, 0), (0, 0), [97, 98], []⟩
    ∧ ([0, 7, 128, 0, 0, 1, 0, 0, 0, 0, 0, 0]
        ++ encodeHost [97, 98] QueryType.A).drop 12
        = encodeHost [97, 98] QueryType.A
    ∧ clientQueryRecv (0, 7) [97, 98] (encodeHost [97, 98] QueryType.A).length
        ([0, 7, 128, 0, 0, 1, 0, 0, 0, 0, 0, 0] ++ encodeHost [97, 98] QueryType.A)
        = QueryResult.answers [] :=
  ⟨by decide, by decide,
    c9_zero_answers (0, 7) [97, 98] (encodeHost [97, 98] QueryType.A)
      ([0, 7, 128, 0, 0, 1, 0, 0, 0, 0, 0, 0] ++ encodeHost [97, 98] QueryType.A)
      ⟨(0, 7), (128, 0), (0, 1), (0, 0), (0, 0), (0, 0), [97, 98], []⟩
      (by decide) (by decide) (by decide) (by decide) (by decide)⟩

/-- C3: the out-of-bounds branch of the answer walk is reachable: c3data has
a well-formed header that decodes with matching id 0x1234 and success status,
its answer bytes start with the pointer byte 0xc0 and declare type A with
RDATA length 4, but only one address byte is present, so reading the four
RDATA address bytes indexes past the end of the received bytes. -/
theorem c3_oob_read_reachable :
    deserializeDNSMessage c3data
      = some ⟨(18, 52), (128, 0), (0, 1), (0, 1), (0, 0), (0, 0), [97, 98], []⟩
    ∧ (DNSMessage.mk (18, 52) (128, 0) (0, 1) (0, 1) (0, 0) (0, 0)
        [97, 98] []).rdCode = Except.ok ()
    ∧ (c3data.drop 12).drop (encodeHost [97, 98] QueryType.A).length
        = [0xc0, 0x0c, 0, 1, 0, 1, 0, 0, 0, 0, 0, 4, 93]
    ∧ decodeQueryType [0, 1] = Except.ok QueryType.A
    ∧ clientQueryRecv (18, 52) [97, 98]
        (encodeHost [97, 98] QueryType.A).length c3data
        = QueryResult.panic := by
  refine ⟨by decide, by decide, by decide, by decide, ?_⟩
  have hdec : deserializeDNSMessage (c3data.take c3data.length)
      = some ⟨(18, 52), (128, 0), (0, 1), (0, 1), (0, 0), (0, 0),
          [97, 98], []⟩ := by decide
  have hrd : (DNSMessage.mk (18, 52) (128, 0) (0, 1) (0, 1) (0, 0) (0, 0)
      [97, 98] []).rdCode = Except.ok () := by decide
  simp only [clientQueryRecv, DNSMessage.decode, hdec, hrd]
  rw [if_neg (by decide)]
  simp only [decodeQueryAnswers]
  rw [if_neg (by decide)]
  have hresp : (c3data.drop 12).drop (encodeHost [97, 98] QueryType.A).length
      = [0xc0, 0x0c, 0, 1, 0, 1, 0, 0, 0, 0, 0, 4, 93] := by decide
  rw [hresp, walkAnswers]
  decide
